import Mathlib

/-
Verification development for the DevOps_AI error-triage system.

This file gives a shallow embedding, in Lean 4, of the decision logic of the
repository (src/parser/patterns.py, src/classifier/error_classifier.py,
src/fix_engine/deterministic_fix_engine.py, src/memory/incident_memory.py,
src/patch/patch_generator.py) and proves properties of that embedding.

Modelling conventions, used throughout:
- Python floats are modelled by exact rationals (ℚ); every numeric constant of
  the source (0.1, 0.2, 0.3, 0.4, 0.5, 0.8, 1.0, ...) is a small rational, and
  none of the verified properties depends on floating-point rounding.
- Python strings are Lean Strings; `str.lower()` is re-implemented over the
  character list (lowerStr) because it must reduce inside the kernel, and
  `str.split()` (split on whitespace runs, dropping empties) is pySplit.
- Python dicts with string keys appearing as data (log entries,
  classifications inside an incident, result stats) are association lists in
  insertion order; `d.get(k, default)` is pyGetD, `d.get(k)` is pyGet.
- The regular expressions used by the source are all alternations of
  `.*`-separated literal fragments (e.g. `connection.*timeout|deadlock`).
  They are embedded as their lists of alternatives (Pat), each alternative a
  list of literal fragments (PatAlt); reSearch implements `re.search` for this
  class: an alternative matches iff its fragments occur in order, which the
  matcher decides by always taking the earliest occurrence of each fragment
  (complete for this pattern class).  `re.IGNORECASE` is modelled by lowering
  the subject string; all pattern literals are lower-case in the source.
- `list.sort(key=..., reverse=True)` is Python's stable sort; a stable sort
  with respect to a total preorder has a unique result, so it is embedded as
  the stable insertion sort pySort with the matching boolean preorder, and
  sortedness and stability are proved about pySort below.
-/

/-! ## Generic helpers: dictionaries, strings, pattern search -/

abbrev Dict := List (String × String)

/-- Association-list lookup: Python `d[k]` / `k in d` probing, first match. -/
def lookup_assoc {β : Type} (table : List (String × β)) (k : String) : Option β :=
  (table.find? (fun e => e.1 == k)).map (·.2)

/-- Python `d.get(k, default)` on a string-valued dict. -/
def pyGetD (d : Dict) (k : String) (default : String) : String :=
  (lookup_assoc d k).getD default

/-- Python `d.get(k)` on a string-valued dict (None when absent). -/
def pyGet (d : Dict) (k : String) : Option String :=
  lookup_assoc d k

/-- Python `str.lower()`, re-implemented so that it reduces in the kernel. -/
def lowerStr (s : String) : String := String.mk (s.data.map Char.toLower)

/-- Helper of pySplit: accumulate the current token (reversed) while scanning. -/
def tokenizeAux : List Char → List Char → List String
  | [], acc => if acc.isEmpty then [] else [String.mk acc.reverse]
  | c :: cs, acc =>
    if c.isWhitespace then
      (if acc.isEmpty then tokenizeAux cs [] else String.mk acc.reverse :: tokenizeAux cs [])
    else tokenizeAux cs (c :: acc)

/-- Python `str.split()`: split on whitespace runs, dropping empty tokens. -/
def pySplit (s : String) : List String := tokenizeAux s.data []

/-- Does the fragment occur as a contiguous sublist? (Python `needle in hay`.) -/
def containsSub (needle : List Char) : List Char → Bool
  | [] => needle.isEmpty
  | c :: t => needle.isPrefixOf (c :: t) || containsSub needle t

/-- Python substring test `needle in hay`. -/
def occursIn (needle hay : String) : Bool := containsSub needle.data hay.data

/-- Drop everything up to and including the earliest occurrence of the
fragment; none when the fragment does not occur. -/
def searchTail (needle : List Char) : List Char → Option (List Char)
  | [] => if needle.isEmpty then some [] else none
  | c :: t =>
    if needle.isPrefixOf (c :: t) then some ((c :: t).drop needle.length)
    else searchTail needle t

/-- One regex alternative: `.*`-separated literal fragments. -/
abbrev PatAlt := List String

/-- A regex as used by the source: an alternation of PatAlt alternatives. -/
abbrev Pat := List PatAlt

/-- Do the fragments occur in this order (with arbitrary gaps)?  Matches the
semantics of `re.search` on a single `.*`-separated alternative. -/
def matchParts : List String → List Char → Bool
  | [], _ => true
  | p :: ps, hay =>
    match searchTail p.data hay with
    | none => false
    | some rest => matchParts ps rest

/-- `re.search(pat, s)` for the source's pattern class. -/
def reSearch (pat : Pat) (s : String) : Bool :=
  pat.any (fun alt => matchParts alt s.data)

/-! ## A stable sort matching Python `list.sort`

pyInsert places the new element after every element it does not strictly have
to precede; folding it over the input from the left is therefore a stable
sort.  Python's `list.sort` is also a stable sort, and a stable sort with
respect to a total preorder is unique, so pySort with the corresponding
boolean preorder is a faithful embedding of `list.sort(key=..., reverse=...)`.
-/

/-- Insert x into a sorted list, after all elements y with `le y x`. -/
def pyInsert {α : Type} (le : α → α → Bool) (x : α) : List α → List α
  | [] => [x]
  | y :: ys => if le y x then y :: pyInsert le x ys else x :: y :: ys

/-- Stable sort with respect to the boolean preorder le. -/
def pySort {α : Type} (le : α → α → Bool) (l : List α) : List α :=
  l.foldl (fun acc x => pyInsert le x acc) []

theorem mem_pyInsert {α : Type} {le : α → α → Bool} {x a : α} (s : List α) :
    a ∈ pyInsert le x s ↔ a = x ∨ a ∈ s := by
  induction s with
  | nil => simp [pyInsert]
  | cons y ys ih =>
    simp only [pyInsert]
    split
    · rw [List.mem_cons, ih, List.mem_cons]
      tauto
    · rw [List.mem_cons]

theorem sublist_pyInsert {α : Type} (le : α → α → Bool) (x : α) (s : List α) :
    s.Sublist (pyInsert le x s) := by
  induction s with
  | nil => simp [pyInsert]
  | cons y ys ih =>
    simp only [pyInsert]
    split
    · exact List.Sublist.cons₂ y ih
    · exact List.sublist_cons_self x (y :: ys)

theorem single_sublist_pyInsert {α : Type} (le : α → α → Bool) (x : α) (s : List α) :
    [x].Sublist (pyInsert le x s) := by
  induction s with
  | nil => simp [pyInsert]
  | cons y ys ih =>
    simp only [pyInsert]
    split
    · exact List.Sublist.cons y ih
    · exact List.Sublist.cons₂ x (List.nil_sublist (y :: ys))

theorem pairwise_pyInsert {α : Type} {le : α → α → Bool}
    (htrans : ∀ a b c, le a b = true → le b c = true → le a c = true)
    (htotal : ∀ a b, le a b = true ∨ le b a = true) (x : α) :
    ∀ {s : List α}, s.Pairwise (fun p q => le p q = true) →
      (pyInsert le x s).Pairwise (fun p q => le p q = true) := by
  intro s hs
  induction s with
  | nil => simp [pyInsert]
  | cons y ys ih =>
    rw [List.pairwise_cons] at hs
    obtain ⟨hy, hys⟩ := hs
    simp only [pyInsert]
    split
    · rename_i hyx
      rw [List.pairwise_cons]
      refine ⟨?_, ih hys⟩
      intro z hz
      rcases (mem_pyInsert ys).mp hz with h | h
      · subst h; exact hyx
      · exact hy z h
    · rename_i hyx
      have hxy : le x y = true := by
        rcases htotal x y with h | h
        · exact h
        · exact absurd h hyx
      rw [List.pairwise_cons]
      refine ⟨?_, List.pairwise_cons.mpr ⟨hy, hys⟩⟩
      intro z hz
      rcases List.mem_cons.mp hz with h | h
      · subst h; exact hxy
      · exact htrans x y z hxy (hy z h)

theorem pair_sublist_pyInsert {α : Type} {le : α → α → Bool}
    (htrans : ∀ a b c, le a b = true → le b c = true → le a c = true)
    {x a : α} :
    ∀ {s : List α}, s.Pairwise (fun p q => le p q = true) → a ∈ s → le a x = true →
      [a, x].Sublist (pyInsert le x s) := by
  intro s hs ha hax
  induction s with
  | nil => cases ha
  | cons y ys ih =>
    rw [List.pairwise_cons] at hs
    obtain ⟨hy, hys⟩ := hs
    simp only [pyInsert]
    split
    · rename_i hyx
      rcases List.mem_cons.mp ha with h | h
      · subst h
        exact List.Sublist.cons₂ a (single_sublist_pyInsert le x ys)
      · exact List.Sublist.cons y (ih hys h)
    · rename_i hyx
      rcases List.mem_cons.mp ha with h | h
      · subst h; exact absurd hax hyx
      · exact absurd (htrans y a x (hy a h) hax) hyx

theorem pairwise_pySort {α : Type} {le : α → α → Bool}
    (htrans : ∀ a b c, le a b = true → le b c = true → le a c = true)
    (htotal : ∀ a b, le a b = true ∨ le b a = true) (l : List α) :
    (pySort le l).Pairwise (fun p q => le p q = true) := by
  suffices h : ∀ acc : List α, acc.Pairwise (fun p q => le p q = true) →
      (l.foldl (fun acc x => pyInsert le x acc) acc).Pairwise (fun p q => le p q = true) by
    exact h [] (by simp)
  induction l with
  | nil => intro acc hacc; exact hacc
  | cons x xs ih =>
    intro acc hacc
    exact ih _ (pairwise_pyInsert htrans htotal x hacc)

theorem mem_pySort {α : Type} {le : α → α → Bool} {a : α} (l : List α) :
    a ∈ pySort le l ↔ a ∈ l := by
  suffices h : ∀ acc : List α, a ∈ l.foldl (fun acc x => pyInsert le x acc) acc ↔
      a ∈ acc ∨ a ∈ l by
    simpa using h []
  induction l with
  | nil => simp
  | cons x xs ih =>
    intro acc
    rw [List.foldl_cons, ih (pyInsert le x acc), mem_pyInsert]
    simp only [List.mem_cons]
    tauto

theorem pySort_append_singleton {α : Type} (le : α → α → Bool) (l : List α) (x : α) :
    pySort le (l ++ [x]) = pyInsert le x (pySort le l) := by
  simp [pySort, List.foldl_append]

theorem pair_sublist_pySort {α : Type} {le : α → α → Bool}
    (htrans : ∀ a b c, le a b = true → le b c = true → le a c = true)
    (htotal : ∀ a b, le a b = true ∨ le b a = true) {a b : α} :
    ∀ {l : List α}, [a, b].Sublist l → le a b = true → [a, b].Sublist (pySort le l) := by
  intro l
  induction l using List.reverseRecOn with
  | nil => intro h _; simp at h
  | append_singleton l' x ih =>
    intro h hab
    rw [pySort_append_singleton]
    rcases List.sublist_append_iff.mp h with ⟨l₁, l₂, heq, h₁, h₂⟩
    have hl₂ : l₂ = [] ∨ l₂ = [x] := by
      cases h₂ with
      | cons _ h => left; exact List.sublist_nil.mp h
      | cons₂ _ h =>
        right
        rename_i t _
        rw [List.sublist_nil.mp h]
    rcases hl₂ with h2 | h2
    · subst h2
      rw [List.append_nil] at heq
      subst heq
      exact (ih h₁ hab).trans (sublist_pyInsert le x _)
    · subst h2
      have hl₁ : l₁ = [a] ∧ b = x := by
        cases l₁ with
        | nil => simp at heq
        | cons c t =>
          cases t with
          | nil =>
            simp only [List.cons_append, List.nil_append, List.cons.injEq] at heq
            exact ⟨by rw [heq.1], heq.2.1⟩
          | cons d t' => simp at heq
      obtain ⟨hl₁, hbx⟩ := hl₁
      subst hl₁
      subst hbx
      have hamem : a ∈ l' := (List.singleton_sublist.mp h₁)
      exact pair_sublist_pyInsert htrans (pairwise_pySort htrans htotal l')
        ((mem_pySort l').mpr hamem) hab

/-! ## Classifier: parser/patterns.py (ErrorPatterns) -/

/-- The error taxonomy of ErrorPatterns._initialize_error_patterns, in source
order.  Each compiled regex becomes a Pat; groups followed by a common suffix,
such as `(mysql|postgres|mongodb).*error`, are expanded into their
alternatives. -/
def error_patterns : List (String × List Pat) :=
  [("database_errors",
     [[["connection", "timeout"], ["database", "unavailable"], ["deadlock"],
       ["constraint", "violation"]],
      [["mysql", "error"], ["postgres", "error"], ["mongodb", "error"]],
      [["sql", "syntax"], ["query", "failed"]]]),
   ("network_errors",
     [[["connection", "refused"], ["timeout"], ["network", "unreachable"]],
      [["dns", "error"], ["host", "not", "found"]],
      [["ssl", "error"], ["certificate", "error"]]]),
   ("application_errors",
     [[["null", "pointer"], ["segmentation", "fault"], ["out", "of", "memory"]],
      [["permission", "denied"], ["access", "denied"]],
      [["file", "not", "found"], ["directory", "not", "found"]]]),
   ("authentication_errors",
     [[["invalid", "credentials"], ["authentication", "failed"]],
      [["unauthorized"], ["forbidden"]],
      [["session", "expired"], ["token", "expired"]]]),
   ("system_errors",
     [[["disk", "full"], ["out", "of", "space"]],
      [["memory", "leak"], ["cpu", "overload"]],
      [["service", "unavailable"], ["system", "down"]]])]

/-- ErrorPatterns.classify_error: every taxonomy entry with at least one
matching pattern, in taxonomy order; `['unknown']` when none match. -/
def classify_error (message : String) : List String :=
  let ml := lowerStr message
  let cs := error_patterns.filterMap
    (fun tp => if tp.2.any (fun p => reSearch p ml) then some tp.1 else none)
  if cs.isEmpty then ["unknown"] else cs

/-- ErrorPatterns._determine_severity: priority-ordered keyword sets. -/
def determine_severity (message : String) : String :=
  let ml := lowerStr message
  if ["fatal", "critical", "crash", "down", "unavailable"].any (fun k => occursIn k ml) then
    "CRITICAL"
  else if ["warn", "warning", "timeout", "retry"].any (fun k => occursIn k ml) then
    "WARNING"
  else if ["info", "debug", "trace"].any (fun k => occursIn k ml) then
    "INFO"
  else
    "ERROR"

/-- The component table of ErrorPatterns._extract_components, in source order. -/
def component_patterns : List (Pat × String) :=
  [([["database"], ["db"]], "database"),
   ([["api"], ["service"], ["endpoint"]], "service"),
   ([["user"], ["account"], ["auth"]], "authentication"),
   ([["file"], ["disk"], ["storage"]], "storage"),
   ([["network"], ["connection"], ["socket"]], "network"),
   ([["memory"], ["cpu"], ["ram"]], "system"),
   ([["queue"], ["message"], ["event"]], "messaging"),
   ([["cache"], ["redis"], ["memcached"]], "cache")]

/-- ErrorPatterns._extract_components. -/
def extract_components (message : String) : List String :=
  let ml := lowerStr message
  component_patterns.filterMap (fun pc => if reSearch pc.1 ml then some pc.2 else none)

/-- ErrorPatterns._suggest_actions: keyword-triggered action blocks, in source
order. -/
def suggest_actions (message : String) : List String :=
  let ml := lowerStr message
  (if occursIn "timeout" ml then
     ["Check network connectivity", "Increase timeout settings", "Monitor resource usage"]
   else []) ++
  (if occursIn "connection" ml then
     ["Verify service availability", "Check connection configuration", "Review firewall settings"]
   else []) ++
  (if occursIn "database" ml then
     ["Check database connectivity", "Verify database permissions", "Review query performance"]
   else []) ++
  (if occursIn "authentication" ml || occursIn "auth" ml then
     ["Verify credentials", "Check authentication service", "Review session configuration"]
   else [])

/-! ## Classifier: classifier/error_classifier.py -/

/-- ErrorClassification (classifier/error_classifier.py), confidence as ℚ. -/
structure ErrorClassification where
  error_type : String
  severity : String
  confidence : ℚ
  components : List String
  suggested_actions : List String
  root_cause : Option String
  affected_systems : List String
  classification_rules : List String
deriving DecidableEq

/-- The per-error-type root-cause table of
ErrorClassifier._determine_root_cause, in source order. -/
def root_cause_patterns : List (String × List (Pat × String)) :=
  [("database_errors",
     [([["connection", "timeout"]], "Database connection timeout"),
      ([["deadlock"]], "Database deadlock detected"),
      ([["constraint", "violation"]], "Database constraint violation"),
      ([["query", "failed"]], "SQL query execution failed")]),
   ("network_errors",
     [([["connection", "refused"]], "Service connection refused"),
      ([["timeout"]], "Network timeout"),
      ([["host", "not", "found"]], "DNS resolution failed"),
      ([["ssl", "error"]], "SSL/TLS handshake failed")]),
   ("application_errors",
     [([["null", "pointer"]], "Null pointer exception"),
      ([["segmentation", "fault"]], "Memory access violation"),
      ([["out", "of", "memory"]], "Memory exhaustion"),
      ([["permission", "denied"]], "File system permission denied")])]

/-- First matching (pattern, cause) pair of one table entry. -/
def find_cause (ml : String) : List (Pat × String) → Option String
  | [] => none
  | pc :: rest => if reSearch pc.1 ml then some pc.2 else find_cause ml rest

/-- ErrorClassifier._determine_root_cause: first error type present in the
table whose pattern list has a match. -/
def determine_root_cause (message : String) : List String → Option String
  | [] => none
  | et :: rest =>
    match lookup_assoc root_cause_patterns et with
    | none => determine_root_cause message rest
    | some pcs =>
      match find_cause (lowerStr message) pcs with
      | some c => some c
      | none => determine_root_cause message rest

/-- The system table of ErrorClassifier._determine_affected_systems, in source
order. -/
def system_patterns : List (Pat × String) :=
  [([["api"], ["rest"], ["graphql"]], "API Gateway"),
   ([["database"], ["db"], ["mysql"], ["postgres"], ["mongodb"]], "Database System"),
   ([["cache"], ["redis"], ["memcached"]], "Caching System"),
   ([["queue"], ["kafka"], ["rabbitmq"]], "Message Queue"),
   ([["storage"], ["s3"], ["filesystem"]], "Storage System"),
   ([["auth"], ["oauth"], ["jwt"]], "Authentication System"),
   ([["monitoring"], ["metrics"], ["prometheus"]], "Monitoring System"),
   ([["load", "balancer"], ["nginx"], ["haproxy"]], "Load Balancer")]

/-- ErrorClassifier._determine_affected_systems.  The source materialises the
result as `list(set(...))` with unspecified iteration order; the embedding
uses the order-deterministic dedup of the same members. -/
def determine_affected_systems (message : String) (components : List String) : List String :=
  let ml := lowerStr message
  (components ++
    system_patterns.filterMap (fun ps => if reSearch ps.1 ml then some ps.2 else none)).dedup

/-- ErrorClassifier._get_classification_rules. -/
def get_classification_rules (message : String) (error_types : List String) : List String :=
  (error_types.map (fun et => "Error type detected: " ++ et)) ++
  ["Severity determined: " ++ determine_severity message] ++
  (if (extract_components message).isEmpty then []
   else ["Components detected: " ++ String.intercalate ", " (extract_components message)])

/-- Python `error_types and error_types[0] != 'unknown'`. -/
def head_known : List String → Bool
  | [] => false
  | t :: _ => t != "unknown"

/-- ErrorClassifier._calculate_rule_confidence: the clamp-to-1 sum of the five
bonuses (type, length, components, actions, single-type specificity). -/
def calculate_rule_confidence (error_types : List String) (message : String) : ℚ :=
  min ((if head_known error_types then (3 : ℚ) / 10 else 0)
    + (if 10 < message.length then (1 : ℚ) / 10 else 0)
    + (if (extract_components message).isEmpty then 0 else (1 : ℚ) / 5)
    + (if (suggest_actions message).isEmpty then 0 else (1 : ℚ) / 5)
    + (if error_types.length = 1 then (1 : ℚ) / 5 else 0)) 1

/-- ErrorClassifier._classify_with_rules. -/
def classify_with_rules (message : String) : ErrorClassification :=
  let error_types := classify_error message
  { error_type := error_types.headD "unknown"
    severity := determine_severity message
    confidence := calculate_rule_confidence error_types message
    components := extract_components message
    suggested_actions := suggest_actions message
    root_cause := determine_root_cause message error_types
    affected_systems := determine_affected_systems message (extract_components message)
    classification_rules := get_classification_rules message error_types }

/-- ErrorClassifier._combine_classifications.  For two or more sources the
source materialises components and actions as `list(set(...))` with
unspecified iteration order; the embedding uses the order-deterministic dedup
of the concatenation, which has the same members and no duplicates. -/
def combine_classifications : List ErrorClassification → ErrorClassification
  | [] =>
    { error_type := "unknown", severity := "UNKNOWN", confidence := 0, components := [],
      suggested_actions := [], root_cause := none, affected_systems := [],
      classification_rules := [] }
  | [c] => c
  | c :: cs =>
    { error_type := c.error_type
      severity := c.severity
      confidence := ((c :: cs).map (·.confidence)).sum / (((c :: cs).length : ℚ))
      components := ((c :: cs).flatMap (·.components)).dedup
      suggested_actions := ((c :: cs).flatMap (·.suggested_actions)).dedup
      root_cause := c.root_cause
      affected_systems := c.affected_systems
      classification_rules := c.classification_rules }

/-- A parsed log entry as consumed by ErrorClassifier.classify: the message
plus arbitrary structured data (its type is a parameter, making "the rule path
never reads structured_data" a statement about every possible payload). -/
structure ParsedEntry (σ : Type) where
  message : String
  structured_data : σ

/-- ErrorClassifier._classify_error in the configuration of the claims:
rule source enabled, ML source disabled (the source's ml_model is the None
placeholder, so the ML branch never contributes). -/
def classify_error_full {σ : Type} (message : String) (_structured_data : σ) :
    ErrorClassification :=
  combine_classifications [classify_with_rules message]

/-- The classification cache: Python dict keyed by hash(message), in insertion
order.  The embedding keys by the message itself; the cache key is a function
of the message alone either way. -/
abbrev ClsCache := List (String × ErrorClassification)

/-- ErrorClassifier._add_to_cache with its evict-first-inserted policy
(cache_size = 500). -/
def add_to_cache (cache : ClsCache) (key : String) (c : ErrorClassification) : ClsCache :=
  (if 500 ≤ cache.length then cache.drop 1 else cache) ++ [(key, c)]

/-- ErrorClassifier.classify: cache hit returns the memoized classification,
cache miss classifies and memoizes. -/
def classify {σ : Type} (cache : ClsCache) (entry : ParsedEntry σ) :
    ErrorClassification × ClsCache :=
  match lookup_assoc cache entry.message with
  | some c => (c, cache)
  | none =>
    let c := classify_error_full entry.message entry.structured_data
    (c, add_to_cache cache entry.message c)

/-! ## Fix engine: fix_engine/deterministic_fix_engine.py -/

/-- One entry of a rule's `changes` list. -/
structure CodeChange where
  file_pattern : String
  search_pattern : String
  replace_pattern : String
  description : String
deriving DecidableEq

/-- A fix rule of DeterministicFixEngine._load_fix_rules (or a custom rule
added by add_custom_fix_rule).  `pattern` is `none` for a Python empty/missing
pattern string, which is falsy in `_rule_matches_context` yet matches
everything under `re.search`. -/
structure FixRule where
  name : String
  pattern : Option Pat
  fix_type : String
  description : String
  changes : List CodeChange
  confidence : ℚ
  risk_level : String
  rollback_possible : Bool
deriving DecidableEq

/-- A code change materialised into a Fix (`files_affected` starts empty). -/
structure CodeChangeOut where
  file_pattern : String
  search_pattern : String
  replace_pattern : String
  description : String
  files_affected : List String
deriving DecidableEq

/-- The Fix dataclass of deterministic_fix_engine.py (the spec calls it
FixCandidate; the name Fix is taken in Mathlib), confidence as ℚ. -/
structure FixCandidate where
  fix_type : String
  description : String
  code_changes : List CodeChangeOut
  confidence : ℚ
  risk_level : String
  rollback_possible : Bool
  estimated_impact : String
deriving DecidableEq

/-- One item of `analysis['error_context']`: a located code snippet. -/
structure ContextItem where
  file_path : String
  code_snippet : String
deriving DecidableEq

/-- The `analysis` input of generate_fixes: located snippets plus the
`common_patterns` pattern-to-count map (its keys are used as regexes against
rule descriptions, so they are embedded as Pat). -/
structure AnalysisInput where
  error_context : List ContextItem
  common_patterns : List (Pat × Nat)

/-- The classification fields the fix engine reads, with the source's
`.get(..., '' / [])` defaults already applied at the boundary. -/
structure ClsInput where
  error_type : String
  severity : String
  components : List String

/-- The fix-rules registry `self.fix_rules`: error-type key to rule list, in
registration order (initial table first, custom rules appended). -/
abbrev FixRegistry := List (String × List FixRule)

/-- Rules registered under one key; `[]` when the key is absent. -/
def lookup_rules (registry : FixRegistry) (k : String) : List FixRule :=
  (lookup_assoc registry k).getD []

/-- DeterministicFixEngine._get_applicable_fix_rules: rules of the error type,
then rules of `"{error_type}_{component}"` per component, then the
severity gate that keeps only LOW/MEDIUM risk under CRITICAL severity. -/
def get_applicable_fix_rules (registry : FixRegistry) (error_type severity : String)
    (components : List String) : List FixRule :=
  let rules := lookup_rules registry error_type ++
    components.flatMap (fun c => lookup_rules registry (error_type ++ "_" ++ c))
  if severity = "CRITICAL" then
    rules.filter (fun r => r.risk_level == "LOW" || r.risk_level == "MEDIUM")
  else
    rules

/-- `re.search(rule_pattern, s)` where an absent pattern (Python `''`)
matches everything. -/
def matchPatOpt (p : Option Pat) (s : String) : Bool :=
  match p with
  | none => true
  | some pat => reSearch pat (lowerStr s)

/-- DeterministicFixEngine._rule_matches_context: the rule pattern matches
some context snippet (only when the pattern is non-empty), or some
common-pattern key matches the rule description. -/
def rule_matches_context (rule : FixRule) (error_context : List ContextItem)
    (common_patterns : List (Pat × Nat)) : Bool :=
  (rule.pattern.isSome &&
    error_context.any (fun ctx => matchPatOpt rule.pattern ctx.code_snippet)) ||
  common_patterns.any (fun pc => reSearch pc.1 (lowerStr rule.description))

/-- DeterministicFixEngine._estimate_impact: count of distinct affected
files. -/
def estimate_impact (error_context : List ContextItem) : String :=
  let affected_files := (error_context.map (·.file_path)).dedup.length
  if 10 < affected_files then "HIGH"
  else if 3 < affected_files then "MEDIUM"
  else "LOW"

/-- DeterministicFixEngine._create_fix_from_rule: declared rule confidence
plus 0.1 per matching context snippet, clamped to 1. -/
def create_fix_from_rule (rule : FixRule) (error_context : List ContextItem)
    (_common_patterns : List (Pat × Nat)) : Option FixCandidate :=
  let context_matches :=
    (error_context.filter (fun ctx => matchPatOpt rule.pattern ctx.code_snippet)).length
  let confidence :=
    if 0 < context_matches then rule.confidence + (context_matches : ℚ) * ((1 : ℚ) / 10)
    else rule.confidence
  some
    { fix_type := rule.fix_type
      description := rule.description
      code_changes := rule.changes.map (fun ch =>
        { file_pattern := ch.file_pattern
          search_pattern := ch.search_pattern
          replace_pattern := ch.replace_pattern
          description := ch.description
          files_affected := [] })
      confidence := min confidence 1
      risk_level := rule.risk_level
      rollback_possible := rule.rollback_possible
      estimated_impact := estimate_impact error_context }

/-- DeterministicFixEngine._risk_score. -/
def risk_score (risk_level : String) : Nat :=
  match risk_level.toUpper with
  | "LOW" => 1
  | "MEDIUM" => 2
  | "HIGH" => 3
  | "CRITICAL" => 4
  | "UNKNOWN" => 5
  | _ => 5

/-- The boolean preorder of `fixes.sort(key=lambda x: (x.confidence,
-_risk_score(x.risk_level)), reverse=True)`: a may precede b iff b's
confidence is lower, or confidences tie and a's risk score is not larger. -/
def fixLE (a b : FixCandidate) : Bool :=
  decide (b.confidence < a.confidence) ||
    (decide (a.confidence = b.confidence) &&
      decide (risk_score a.risk_level ≤ risk_score b.risk_level))

/-- The candidate fixes before ranking: applicable rules that match the
context, materialised in registration order. -/
def candidate_fixes (registry : FixRegistry) (cls : ClsInput) (an : AnalysisInput) :
    List FixCandidate :=
  (get_applicable_fix_rules registry cls.error_type cls.severity cls.components).filterMap
    (fun rule =>
      if rule_matches_context rule an.error_context an.common_patterns then
        create_fix_from_rule rule an.error_context an.common_patterns
      else none)

/-- DeterministicFixEngine._generate_fixes_for_error: candidates ranked by
descending confidence, ascending risk, stably. -/
def generate_fixes_for_error (registry : FixRegistry) (cls : ClsInput)
    (an : AnalysisInput) : List FixCandidate :=
  pySort fixLE (candidate_fixes registry cls an)

theorem fixLE_trans (a b c : FixCandidate) (hab : fixLE a b = true) (hbc : fixLE b c = true) :
    fixLE a c = true := by
  simp only [fixLE, Bool.or_eq_true, Bool.and_eq_true, decide_eq_true_eq] at *
  rcases hab with h1 | ⟨h1, h1r⟩ <;> rcases hbc with h2 | ⟨h2, h2r⟩
  · exact Or.inl (h2.trans h1)
  · exact Or.inl (h2 ▸ h1)
  · exact Or.inl (h1 ▸ h2)
  · exact Or.inr ⟨h1.trans h2, h1r.trans h2r⟩

theorem fixLE_total (a b : FixCandidate) : fixLE a b = true ∨ fixLE b a = true := by
  simp only [fixLE, Bool.or_eq_true, Bool.and_eq_true, decide_eq_true_eq]
  rcases lt_trichotomy a.confidence b.confidence with h | h | h
  · exact Or.inr (Or.inl h)
  · rcases le_total (risk_score a.risk_level) (risk_score b.risk_level) with hr | hr
    · exact Or.inl (Or.inr ⟨h, hr⟩)
    · exact Or.inr (Or.inr ⟨h.symm, hr⟩)
  · exact Or.inl (Or.inl h)

/-! ## Incident store: memory/incident_memory.py

Timestamps are rationals measured in days, so `timedelta(hours=24)` is 1 and
`timedelta(days=retention_days)` is `retention_days`.
-/

/-- Incident (memory/incident_memory.py dataclass).  Nested dicts and lists
carry string payloads; the fields the modelled operations never read are kept
as opaque dict/list data. -/
structure IncidentM where
  incident_id : String
  timestamp : ℚ
  log_entry : Dict
  parsed_data : Dict
  classification : Dict
  analysis : Dict
  fixes : List Dict
  patches : List Dict
  resolution_status : String
  metadata : Dict
deriving DecidableEq

/-- The `incident_data` argument of store_incident, with the source's
`.get(..., {} / [])` defaults already applied. -/
structure IncidentData where
  log_entry : Dict
  parsed_data : Dict
  classification : Dict
  analysis : Dict
  fixes : List Dict
  patches : List Dict

/-- IncidentMemory._generate_incident_id.  The source hashes
`message|error_type|severity|str(common_patterns)` with md5 and truncates;
the embedding keeps the joined key data itself as the digest (the claims
depend only on the id being this function of the store time and the key
data). -/
def generate_incident_id (now : ℚ) (d : IncidentData) : String :=
  let key := pyGetD d.log_entry "message" "" ++ "|" ++
    pyGetD d.classification "error_type" "" ++ "|" ++
    pyGetD d.classification "severity" "" ++ "|" ++
    pyGetD d.analysis "common_patterns" ""
  "incident_" ++ toString now.num ++ "_" ++ toString now.den ++ "_" ++ key

/-- The Incident object store_incident builds before the dedup check. -/
def mk_incident (now : ℚ) (d : IncidentData) : IncidentM :=
  { incident_id := generate_incident_id now d
    timestamp := now
    log_entry := d.log_entry
    parsed_data := d.parsed_data
    classification := d.classification
    analysis := d.analysis
    fixes := d.fixes
    patches := d.patches
    resolution_status := "pending"
    metadata := [("source", "devops_ai"), ("version", "1.0.0")] }

/-- IncidentMemory._calculate_similarity: Jaccard similarity of the
whitespace-token sets; 0 when the union is empty. -/
def calculate_similarity (text1 text2 : String) : ℚ :=
  let s1 := (pySplit text1).toFinset
  let s2 := (pySplit text2).toFinset
  if s1 ∪ s2 = ∅ then 0 else ((s1 ∩ s2).card : ℚ) / ((s1 ∪ s2).card : ℚ)

/-- IncidentMemory._is_duplicate_incident: some stored incident of the last
24 hours with the same (error_type, severity) and message similarity
above 0.8. -/
def is_duplicate_incident (now : ℚ) (incidents : List IncidentM)
    (newInc : IncidentM) : Bool :=
  incidents.any (fun inc =>
    !(decide (inc.timestamp < now - 1)) &&
    (pyGet inc.classification "error_type" == pyGet newInc.classification "error_type") &&
    (pyGet inc.classification "severity" == pyGet newInc.classification "severity") &&
    decide ((4 : ℚ) / 5 <
      calculate_similarity (lowerStr (pyGetD inc.log_entry "message" ""))
        (lowerStr (pyGetD newInc.log_entry "message" ""))))

/-- IncidentMemory.store_incident with deduplication enabled or disabled:
returns the freshly generated id either way; a detected duplicate is not
persisted.  The store `self._incidents` is its value list in insertion
order. -/
def store_incident (now : ℚ) (enable_dedup : Bool) (d : IncidentData)
    (incidents : List IncidentM) : String × List IncidentM :=
  let id := generate_incident_id now d
  let inc := mk_incident now d
  if enable_dedup && is_duplicate_incident now incidents inc then
    (id, incidents)
  else
    (id, incidents ++ [inc])

/-- `get_incident_statistics()['total_incidents']`. -/
def total_incidents (incidents : List IncidentM) : Nat := incidents.length

/-- IncidentMemory.cleanup_old_incidents: drop incidents strictly older than
`now - retention_days`. -/
def cleanup_old_incidents (now : ℚ) (retention_days : ℕ)
    (incidents : List IncidentM) : List IncidentM :=
  incidents.filter (fun inc => !(decide (inc.timestamp < now - (retention_days : ℚ))))

/-- IncidentMemory._calculate_incident_similarity: 0.4 for an equal
error_type, 0.3 for an equal severity, 0.3 times the message Jaccard
similarity. -/
def calculate_incident_similarity (incident1 incident2 : IncidentM) : ℚ :=
  (if pyGet incident1.classification "error_type" =
      pyGet incident2.classification "error_type" then (2 : ℚ) / 5 else 0) +
  (if pyGet incident1.classification "severity" =
      pyGet incident2.classification "severity" then (3 : ℚ) / 10 else 0) +
  calculate_similarity (lowerStr (pyGetD incident1.log_entry "message" ""))
    (lowerStr (pyGetD incident2.log_entry "message" "")) * ((3 : ℚ) / 10)

/-- The preorder of `similar_incidents.sort(key=lambda x: x[0],
reverse=True)`: descending similarity, stable. -/
def simLE (a b : ℚ × IncidentM) : Bool := decide (b.1 ≤ a.1)

/-- IncidentMemory.get_similar_incidents: all other incidents with similarity
above 0.5, sorted by descending similarity, first `limit` of them. -/
def get_similar_incidents (incidents : List IncidentM) (incident : IncidentM)
    (limit : ℕ) : List IncidentM :=
  let pairs := incidents.filterMap (fun stored =>
    if stored.incident_id = incident.incident_id then none
    else
      let sim := calculate_incident_similarity incident stored
      if (1 : ℚ) / 2 < sim then some (sim, stored) else none)
  ((pySort simLE pairs).take limit).map (·.2)

theorem simLE_trans (a b c : ℚ × IncidentM) (hab : simLE a b = true)
    (hbc : simLE b c = true) : simLE a c = true := by
  simp only [simLE, decide_eq_true_eq] at *
  exact hbc.trans hab

theorem simLE_total (a b : ℚ × IncidentM) : simLE a b = true ∨ simLE b a = true := by
  simp only [simLE, decide_eq_true_eq]
  exact (le_total b.1 a.1)

/-! ## Patch lifecycle: patch/patch_generator.py

The file system is a list of (path, contents) files; directories are the
path prefixes.  `shutil.rmtree(d)` removes every file under d;
`shutil.copytree(src, dst)` snapshots the files under src to dst (CPython
lists the top-level entries of src before creating dst, so a dst inside src
is not re-copied into itself, which this snapshot semantics matches);
`os.path.exists(d)` is "some file lies under d".
-/

abbrev FPath := List String

abbrev FileSys := List (FPath × String)

/-- `shutil.rmtree(d)`: drop every file under d. -/
def rmtree (d : FPath) (fs : FileSys) : FileSys :=
  fs.filter (fun pc => !(d.isPrefixOf pc.1))

/-- `os.path.exists(d)` for a directory in the files-only model. -/
def dirExists (d : FPath) (fs : FileSys) : Bool :=
  fs.any (fun pc => d.isPrefixOf pc.1)

/-- `shutil.copytree(src, dst)`: add a copy under dst of every file under
src. -/
def copytree (src dst : FPath) (fs : FileSys) : FileSys :=
  fs ++ fs.filterMap (fun pc =>
    if src.isPrefixOf pc.1 then some (dst ++ pc.1.drop src.length, pc.2) else none)

/-- PatchGenerator._create_backup: remove a stale backup, then snapshot the
target directory. -/
def create_backup (source_dir backup_dir : FPath) (fs : FileSys) : FileSys :=
  copytree source_dir backup_dir (if dirExists backup_dir fs then rmtree backup_dir fs else fs)

/-- PatchGenerator._restore_backup: rmtree the target, then copy the backup
back.  Returns false (the raised FileNotFoundError) when the backup no longer
exists after the rmtree. -/
def restore_backup (target_dir backup_dir : FPath) (fs : FileSys) : Bool × FileSys :=
  let fs1 := if dirExists target_dir fs then rmtree target_dir fs else fs
  if dirExists backup_dir fs1 then (true, copytree backup_dir target_dir fs1)
  else (false, fs1)

/-- The fields of Patch that apply_patch reads. -/
structure PatchM where
  patch_id : String
  content : String

/-- The result contract of the Validator collaborator
(`_validate_patch_application`; a simulation stub in the source, so the
outcome is a parameter here, per the spec's collaborator contract). -/
structure ValidationOutcome where
  success : Bool
  warnings : List String
  errors : List String

/-- PatchResult (patch_generator.py dataclass); the `patches` list is kept as
the patch ids, and `stats` maps stat keys to paths. -/
structure PatchResultM where
  success : Bool
  patches : List String
  errors : List String
  warnings : List String
  stats : List (String × FPath)
deriving DecidableEq

/-- PatchGenerator.apply_patch (max_patch_size in KB, default 1024): size
gate, backup into `{target_dir}/.backup_{patch_id}`, forward application
(the source's `_apply_patch_content` is a simulation stub that always
succeeds and mutates nothing), validation, and on validation failure the
restore-from-backup path; an exception inside the restore is caught by the
outer handler, which reports the error with empty stats. -/
def apply_patch (max_patch_size : ℕ) (validator : ValidationOutcome)
    (patch : PatchM) (target_dir : FPath) (fs : FileSys) : PatchResultM × FileSys :=
  if max_patch_size * 1024 < patch.content.length then
    ({ success := false, patches := [],
       errors := ["Patch " ++ patch.patch_id ++ " exceeds maximum size limit"],
       warnings := [], stats := [] }, fs)
  else
    let backup_dir := target_dir ++ [".backup_" ++ patch.patch_id]
    let fs1 := create_backup target_dir backup_dir fs
    if validator.success then
      ({ success := true, patches := [patch.patch_id], errors := [],
         warnings := validator.warnings,
         stats := [("backup_created", backup_dir)] }, fs1)
    else
      let r := restore_backup target_dir backup_dir fs1
      if r.1 then
        ({ success := false, patches := [], errors := validator.errors,
           warnings := [], stats := [("backup_restored", backup_dir)] }, r.2)
      else
        ({ success := false, patches := [],
           errors := ["FileNotFoundError: backup directory missing"],
           warnings := [], stats := [] }, r.2)

/-! ## Shared helper lemmas -/

/-- Jaccard similarity of a text with itself is 1 once it has any token. -/
theorem calculate_similarity_self (t : String) (h : (pySplit t).toFinset ≠ ∅) :
    calculate_similarity t t = 1 := by
  rw [calculate_similarity]
  simp only [Finset.union_self, Finset.inter_self]
  rw [if_neg h]
  exact div_self (Nat.cast_ne_zero.mpr
    (Finset.card_ne_zero.mpr (Finset.nonempty_iff_ne_empty.mpr h)))

/-- The rule-based confidence is clamped into [0, 1] unconditionally. -/
theorem calculate_rule_confidence_bounds (error_types : List String) (message : String) :
    0 ≤ calculate_rule_confidence error_types message ∧
      calculate_rule_confidence error_types message ≤ 1 := by
  rw [calculate_rule_confidence]
  refine ⟨le_min ?_ zero_le_one, min_le_right _ _⟩
  have h1 : (0 : ℚ) ≤ if head_known error_types then (3 : ℚ) / 10 else 0 := by
    split <;> norm_num
  have h2 : (0 : ℚ) ≤ if 10 < message.length then (1 : ℚ) / 10 else 0 := by
    split <;> norm_num
  have h3 : (0 : ℚ) ≤ if (extract_components message).isEmpty then 0 else (1 : ℚ) / 5 := by
    split <;> norm_num
  have h4 : (0 : ℚ) ≤ if (suggest_actions message).isEmpty then 0 else (1 : ℚ) / 5 := by
    split <;> norm_num
  have h5 : (0 : ℚ) ≤ if error_types.length = 1 then (1 : ℚ) / 5 else 0 := by
    split <;> norm_num
  linarith

/-- The confidence of every rule-based classification is in [0, 1]. -/
theorem classify_with_rules_confidence_bounds (message : String) :
    0 ≤ (classify_with_rules message).confidence ∧
      (classify_with_rules message).confidence ≤ 1 :=
  calculate_rule_confidence_bounds (classify_error message) message

/-! ## C1: the end-to-end classification example -/

/-- The confidence of the end-to-end example, computed exactly: the message
also matches the network_errors taxonomy entry (through its bare `timeout`
pattern), so two error types match and the single-type specificity bonus is
not awarded. -/
theorem c1_confidence_eq :
    (classify_with_rules "Database connection timeout after 30s").confidence = 4 / 5 := by
  have h1 : classify_error "Database connection timeout after 30s"
      = ["database_errors", "network_errors"] := by decide
  show calculate_rule_confidence (classify_error "Database connection timeout after 30s")
    "Database connection timeout after 30s" = 4 / 5
  rw [h1, calculate_rule_confidence]
  have h2 : head_known ["database_errors", "network_errors"] = true := by decide
  have h3 : 10 < ("Database connection timeout after 30s" : String).length := by decide
  have h4 : (extract_components "Database connection timeout after 30s").isEmpty = false := by
    decide
  have h5 : (suggest_actions "Database connection timeout after 30s").isEmpty = false := by
    decide
  have h6 : ¬(["database_errors", "network_errors"] : List String).length = 1 := by decide
  rw [if_pos h2, if_pos h3, if_neg (by rw [h4]; exact Bool.false_ne_true),
    if_neg (by rw [h5]; exact Bool.false_ne_true), if_neg h6]
  rw [min_eq_left (by norm_num)]
  norm_num

/-- C1, as stated, is false at its own input: the classification of
`"Database connection timeout after 30s"` has confidence 4/5, not 1.0,
because the message matches two taxonomy entries (database_errors and, via
the bare `timeout` alternative, network_errors), so the 0.2 single-type
specificity bonus is not awarded. -/
theorem C1_claim_counterexample :
    (classify_with_rules "Database connection timeout after 30s").confidence ≠ 1 := by
  rw [c1_confidence_eq]
  norm_num

/-- C1 amended: for the input message `"Database connection timeout after
30s"`, classify_with_rules returns error_type `database_errors`, severity
`WARNING`, components containing `database`, and confidence exactly 0.8
(0.3 type bonus + 0.1 length bonus + 0.2 component bonus + 0.2 action bonus;
the 0.2 single-type specificity bonus does not apply because both
database_errors and network_errors match). -/
theorem C1_classification_example :
    (classify_with_rules "Database connection timeout after 30s").error_type
        = "database_errors" ∧
    (classify_with_rules "Database connection timeout after 30s").severity = "WARNING" ∧
    "database" ∈ (classify_with_rules "Database connection timeout after 30s").components ∧
    classify_error "Database connection timeout after 30s"
        = ["database_errors", "network_errors"] ∧
    (classify_with_rules "Database connection timeout after 30s").confidence = 4 / 5 :=
  ⟨by decide, by decide, by decide, by decide, c1_confidence_eq⟩

/-! ## C2: restore-on-failure -/

/-- A target directory `t` holding one file. -/
def c2_fs : FileSys := [(["t", "a.txt"], "hello")]

/-- A Validator outcome reporting failure, per the collaborator contract. -/
def c2_validator : ValidationOutcome :=
  { success := false, warnings := [], errors := ["post-apply check failed"] }

def c2_patch : PatchM := { patch_id := "p1", content := "x" }

/-- C2 is what the source intends but not what it does: with the validator
reporting success = false, apply_patch takes the backup at
`t/.backup_p1` - inside the target directory - and _restore_backup then
`rmtree`s the whole target, destroying the backup before it can be copied
back.  The result: the target directory content is erased (not restored to
its pre-apply state), and the failure result carries empty stats instead of
naming the backup. -/
theorem C2_restore_on_failure_bug :
    (apply_patch 1024 c2_validator c2_patch ["t"] c2_fs).2 = [] ∧
    (apply_patch 1024 c2_validator c2_patch ["t"] c2_fs).1.success = false ∧
    (apply_patch 1024 c2_validator c2_patch ["t"] c2_fs).1.stats = [] ∧
    c2_fs ≠ [] := by decide

/-! ## C3: store-time deduplication -/

/-- C3: if some stored incident of the last 24 hours has the same
(error_type, severity) as the incoming data and message-token Jaccard
similarity above 0.8, then store_incident leaves the store unchanged and
still returns the freshly generated incident id. -/
theorem C3_dedup_suppression (now : ℚ) (d : IncidentData) (s : List IncidentM)
    (h : ∃ inc ∈ s, ¬inc.timestamp < now - 1 ∧
      pyGet inc.classification "error_type" = pyGet d.classification "error_type" ∧
      pyGet inc.classification "severity" = pyGet d.classification "severity" ∧
      (4 : ℚ) / 5 < calculate_similarity (lowerStr (pyGetD inc.log_entry "message" ""))
        (lowerStr (pyGetD d.log_entry "message" ""))) :
    store_incident now true d s = (generate_incident_id now d, s) := by
  obtain ⟨inc, hmem, ht, he, hs2, hsim⟩ := h
  have hdup : is_duplicate_incident now s (mk_incident now d) = true := by
    rw [is_duplicate_incident, List.any_eq_true]
    refine ⟨inc, hmem, ?_⟩
    simp only [mk_incident, Bool.and_eq_true, Bool.not_eq_true', decide_eq_false_iff_not,
      beq_iff_eq, decide_eq_true_eq]
    exact ⟨⟨⟨ht, he⟩, hs2⟩, hsim⟩
  rw [store_incident, hdup]
  simp

/-- The incident data of the spec's dedup scenario. -/
def c3_data : IncidentData :=
  { log_entry := [("message", "Database connection timeout after 30s")]
    parsed_data := []
    classification := [("error_type", "database_errors"), ("severity", "WARNING")]
    analysis := []
    fixes := []
    patches := [] }

/-- C3 witness: store the incident at time 0 and the identical incident one
minute (1/1440 day) later; the second store is suppressed by
C3_dedup_suppression and the total incident count stays 1. -/
theorem C3_dedup_suppression_witness :
    total_incidents (store_incident ((1 : ℚ) / 1440) true c3_data
      (store_incident 0 true c3_data []).2).2 = 1 := by
  have hfirst : (store_incident 0 true c3_data []).2 = [mk_incident 0 c3_data] := rfl
  have hsim : (4 : ℚ) / 5 <
      calculate_similarity (lowerStr (pyGetD c3_data.log_entry "message" ""))
        (lowerStr (pyGetD c3_data.log_entry "message" "")) := by
    rw [calculate_similarity_self _ (by decide)]
    norm_num
  have h := C3_dedup_suppression ((1 : ℚ) / 1440) c3_data [mk_incident 0 c3_data]
    ⟨mk_incident 0 c3_data, List.mem_singleton_self _,
      by show ¬(0 : ℚ) < (1 : ℚ) / 1440 - 1; norm_num, rfl, rfl, hsim⟩
  rw [hfirst, h]
  rfl

/-! ## C4: the severity gate -/

/-- C4: under a CRITICAL classification, every candidate rule selected by
get_applicable_fix_rules has risk level LOW or MEDIUM, and therefore so does
every fix candidate produced by generate_fixes_for_error. -/
theorem C4_severity_gate (registry : FixRegistry) (cls : ClsInput) (an : AnalysisInput)
    (hsev : cls.severity = "CRITICAL") :
    (∀ r ∈ get_applicable_fix_rules registry cls.error_type cls.severity cls.components,
        r.risk_level = "LOW" ∨ r.risk_level = "MEDIUM") ∧
    (∀ f ∈ generate_fixes_for_error registry cls an,
        f.risk_level = "LOW" ∨ f.risk_level = "MEDIUM") := by
  have hrules : ∀ r ∈ get_applicable_fix_rules registry cls.error_type cls.severity
      cls.components, r.risk_level = "LOW" ∨ r.risk_level = "MEDIUM" := by
    intro r hr
    rw [get_applicable_fix_rules, hsev, if_pos rfl] at hr
    have hcond := (List.mem_filter.mp hr).2
    simpa using hcond
  refine ⟨hrules, ?_⟩
  intro f hf
  rw [generate_fixes_for_error, mem_pySort, candidate_fixes, List.mem_filterMap] at hf
  obtain ⟨rule, hrule, hsome⟩ := hf
  by_cases hm : rule_matches_context rule an.error_context an.common_patterns = true
  · rw [if_pos hm, create_fix_from_rule] at hsome
    simp only [Option.some.injEq] at hsome
    have : f.risk_level = rule.risk_level := by rw [← hsome]
    rw [this]
    exact hrules rule hrule
  · rw [if_neg hm] at hsome
    cases hsome

/-- Demo rules for the gate: a LOW-risk and a HIGH-risk rule registered under
the same error type, both textually matched by the context. -/
def c4_rule_low : FixRule :=
  { name := "retry_low", pattern := some [["timeout"]], fix_type := "configuration"
    description := "increase the timeout setting", changes := []
    confidence := (4 : ℚ) / 5, risk_level := "LOW", rollback_possible := true }

def c4_rule_high : FixRule :=
  { name := "retry_high", pattern := some [["timeout"]], fix_type := "code"
    description := "rewrite the timeout handling", changes := []
    confidence := (9 : ℚ) / 10, risk_level := "HIGH", rollback_possible := true }

def c4_registry : FixRegistry := [("network_errors", [c4_rule_low, c4_rule_high])]

def c4_cls : ClsInput :=
  { error_type := "network_errors", severity := "CRITICAL", components := [] }

def c4_an : AnalysisInput :=
  { error_context := [], common_patterns := [([["timeout"]], 2)] }

/-- C4 witness: with candidate rules of risk LOW and HIGH under a CRITICAL
classification, the generated output consists of exactly one candidate and it
is LOW-risk. -/
theorem C4_severity_gate_witness :
    (generate_fixes_for_error c4_registry c4_cls c4_an).all
        (fun f => f.risk_level == "LOW" || f.risk_level == "MEDIUM") = true ∧
    (generate_fixes_for_error c4_registry c4_cls c4_an).length = 1 := by
  constructor
  · rw [List.all_eq_true]
    intro f hf
    rcases (C4_severity_gate c4_registry c4_cls c4_an rfl).2 f hf with h | h <;>
      simp [h]
  · rfl

/-! ## C5: candidate ranking -/

/-- C5: the output of generate_fixes_for_error is sorted with non-increasing
confidence, non-decreasing risk score among equal confidences (risk_score
encodes the ordinal LOW < MEDIUM < HIGH < CRITICAL < UNKNOWN), and candidates
equal in both keys keep their order from candidate_fixes, which lists them in
rule-registration order (the sort is stable). -/
theorem C5_ranking_order (registry : FixRegistry) (cls : ClsInput) (an : AnalysisInput) :
    (generate_fixes_for_error registry cls an).Pairwise (fun a b =>
        b.confidence ≤ a.confidence ∧
        (a.confidence = b.confidence →
          risk_score a.risk_level ≤ risk_score b.risk_level)) ∧
    (∀ a b : FixCandidate, a.confidence = b.confidence →
        risk_score a.risk_level = risk_score b.risk_level →
        [a, b].Sublist (candidate_fixes registry cls an) →
        [a, b].Sublist (generate_fixes_for_error registry cls an)) := by
  constructor
  · have hp := pairwise_pySort fixLE_trans fixLE_total (candidate_fixes registry cls an)
    rw [generate_fixes_for_error]
    refine hp.imp ?_
    intro a b hab
    simp only [fixLE, Bool.or_eq_true, Bool.and_eq_true, decide_eq_true_eq] at hab
    rcases hab with h | ⟨h, hr⟩
    · exact ⟨le_of_lt h, fun he => absurd (he ▸ h) (lt_irrefl _)⟩
    · exact ⟨le_of_eq h.symm, fun _ => hr⟩
  · intro a b hconf hrs hsub
    have hle : fixLE a b = true := by
      simp only [fixLE, Bool.or_eq_true, Bool.and_eq_true, decide_eq_true_eq]
      exact Or.inr ⟨hconf, le_of_eq hrs⟩
    exact pair_sublist_pySort fixLE_trans fixLE_total hsub hle

/-- Two rules with equal confidence and equal risk, in registration order. -/
def c5_rule1 : FixRule :=
  { name := "rule_one", pattern := some [["timeout"]], fix_type := "configuration"
    description := "tune the timeout first", changes := []
    confidence := (7 : ℚ) / 10, risk_level := "MEDIUM", rollback_possible := true }

def c5_rule2 : FixRule :=
  { name := "rule_two", pattern := some [["timeout"]], fix_type := "configuration"
    description := "tune the timeout second", changes := []
    confidence := (7 : ℚ) / 10, risk_level := "MEDIUM", rollback_possible := true }

def c5_registry : FixRegistry := [("network_errors", [c5_rule1, c5_rule2])]

def c5_cls : ClsInput :=
  { error_type := "network_errors", severity := "ERROR", components := [] }

def c5_an : AnalysisInput :=
  { error_context := [], common_patterns := [([["timeout"]], 1)] }

/-- The fix candidates the two rules materialise into (no context snippet
matches, so the confidence stays the declared 0.7, clamped). -/
def c5_fix1 : FixCandidate :=
  { fix_type := "configuration", description := "tune the timeout first"
    code_changes := [], confidence := min ((7 : ℚ) / 10) 1
    risk_level := "MEDIUM", rollback_possible := true, estimated_impact := "LOW" }

def c5_fix2 : FixCandidate :=
  { fix_type := "configuration", description := "tune the timeout second"
    code_changes := [], confidence := min ((7 : ℚ) / 10) 1
    risk_level := "MEDIUM", rollback_possible := true, estimated_impact := "LOW" }

/-- C5 witness: two candidates with equal confidence and equal risk keep
their registration order in the ranked output. -/
theorem C5_ranking_order_witness :
    [c5_fix1, c5_fix2].Sublist (generate_fixes_for_error c5_registry c5_cls c5_an) := by
  have hcand : candidate_fixes c5_registry c5_cls c5_an = [c5_fix1, c5_fix2] := rfl
  refine (C5_ranking_order c5_registry c5_cls c5_an).2 c5_fix1 c5_fix2 rfl rfl ?_
  rw [hcand]

/-! ## C6: confidence bounds -/

/-- C6: (a) every rule-based classification has confidence in [0, 1];
(b) classify keeps confidence in [0, 1] for every entry, provided every
memoized confidence is (they are all produced by classify itself);
(c) every fix candidate generated from a registry whose rule confidences lie
in [0, 1] has confidence in [0, 1]. -/
theorem C6_confidence_bounds :
    (∀ message : String,
        0 ≤ (classify_with_rules message).confidence ∧
          (classify_with_rules message).confidence ≤ 1) ∧
    (∀ (σ : Type) (cache : ClsCache) (e : ParsedEntry σ),
        (∀ kv ∈ cache, 0 ≤ kv.2.confidence ∧ kv.2.confidence ≤ 1) →
        0 ≤ (classify cache e).1.confidence ∧ (classify cache e).1.confidence ≤ 1) ∧
    (∀ (registry : FixRegistry) (cls : ClsInput) (an : AnalysisInput),
        (∀ k : String, ∀ r ∈ lookup_rules registry k,
            0 ≤ r.confidence ∧ r.confidence ≤ 1) →
        ∀ f ∈ generate_fixes_for_error registry cls an,
          0 ≤ f.confidence ∧ f.confidence ≤ 1) := by
  refine ⟨classify_with_rules_confidence_bounds, ?_, ?_⟩
  · intro σ cache e hcache
    rw [classify]
    cases hfind : lookup_assoc cache e.message with
    | some c =>
      obtain ⟨kv, hkv, hv⟩ : ∃ kv ∈ cache, kv.2 = c := by
        rw [lookup_assoc] at hfind
        rcases Option.map_eq_some'.mp hfind with ⟨a, ha, hav⟩
        exact ⟨a, List.mem_of_find?_eq_some ha, hav⟩
      exact hv ▸ hcache kv hkv
    | none =>
      exact classify_with_rules_confidence_bounds e.message
  · intro registry cls an hreg f hf
    rw [generate_fixes_for_error, mem_pySort, candidate_fixes, List.mem_filterMap] at hf
    obtain ⟨rule, hrule, hsome⟩ := hf
    have hrb : 0 ≤ rule.confidence ∧ rule.confidence ≤ 1 := by
      rw [get_applicable_fix_rules] at hrule
      have hrule2 : rule ∈ lookup_rules registry cls.error_type ++
          cls.components.flatMap
            (fun c => lookup_rules registry (cls.error_type ++ "_" ++ c)) := by
        split at hrule
        · exact (List.mem_filter.mp hrule).1
        · exact hrule
      rcases List.mem_append.mp hrule2 with h | h
      · exact hreg cls.error_type rule h
      · obtain ⟨c, _, hc⟩ := List.mem_flatMap.mp h
        exact hreg (cls.error_type ++ "_" ++ c) rule hc
    by_cases hm : rule_matches_context rule an.error_context an.common_patterns = true
    · rw [if_pos hm, create_fix_from_rule] at hsome
      simp only [Option.some.injEq] at hsome
      have hconf : f.confidence = min
          (if 0 < ((an.error_context.filter
              (fun ctx => matchPatOpt rule.pattern ctx.code_snippet)).length) then
            rule.confidence +
              (((an.error_context.filter
                (fun ctx => matchPatOpt rule.pattern ctx.code_snippet)).length : ℚ)) *
                ((1 : ℚ) / 10)
          else rule.confidence) 1 := by rw [← hsome]
      rw [hconf]
      constructor
      · refine le_min ?_ zero_le_one
        split
        · have : (0 : ℚ) ≤ (((an.error_context.filter
              (fun ctx => matchPatOpt rule.pattern ctx.code_snippet)).length : ℚ)) *
                ((1 : ℚ) / 10) := by positivity
          linarith [hrb.1]
        · exact hrb.1
      · exact min_le_right _ _
    · rw [if_neg hm] at hsome
      cases hsome

/-- A demo entry with non-string structured payload. -/
def c6_entry : ParsedEntry Nat :=
  { message := "fatal crash in worker", structured_data := 7 }

/-- C6 witness: the bounds instantiated at concrete inputs - the example
message, an empty cache, and the two-rule demo registry (whose declared
confidences 0.7 are in [0, 1]). -/
theorem C6_confidence_bounds_witness :
    (0 ≤ (classify_with_rules "Database connection timeout after 30s").confidence ∧
      (classify_with_rules "Database connection timeout after 30s").confidence ≤ 1) ∧
    (0 ≤ (classify [] c6_entry).1.confidence ∧ (classify [] c6_entry).1.confidence ≤ 1) ∧
    (0 ≤ c5_fix1.confidence ∧ c5_fix1.confidence ≤ 1) := by
  have hreg : ∀ k : String, ∀ r ∈ lookup_rules c5_registry k,
      0 ≤ r.confidence ∧ r.confidence ≤ 1 := by
    intro k r hr
    rw [lookup_rules, lookup_assoc, c5_registry] at hr
    rcases hk : (("network_errors" : String) == k) with _ | _ <;>
      simp only [List.find?, hk] at hr
    · simp at hr
    · simp only [Option.map_some', Option.getD_some] at hr
      rw [List.mem_cons, List.mem_singleton] at hr
      rcases hr with h | h
      · rw [h, c5_rule1]
        norm_num
      · rw [h, c5_rule2]
        norm_num
  have hmem : c5_fix1 ∈ generate_fixes_for_error c5_registry c5_cls c5_an := by
    rw [generate_fixes_for_error, mem_pySort]
    have hcand : candidate_fixes c5_registry c5_cls c5_an = [c5_fix1, c5_fix2] := rfl
    rw [hcand]
    exact List.mem_cons_self _ _
  exact ⟨C6_confidence_bounds.1 "Database connection timeout after 30s",
    C6_confidence_bounds.2.1 Nat [] c6_entry (by simp),
    C6_confidence_bounds.2.2 c5_registry c5_cls c5_an hreg c5_fix1 hmem⟩

/-! ## C7: combining classifications -/

/-- C7: with one source the combination is the identity; with two or more
sources the primary scalar fields come from the first source, components are
the union, suggested actions are the deduplicated union, and confidence is
the arithmetic mean. -/
theorem C7_combination :
    (∀ c : ErrorClassification, combine_classifications [c] = c) ∧
    (∀ (c1 c2 : ErrorClassification) (rest : List ErrorClassification),
      (combine_classifications (c1 :: c2 :: rest)).error_type = c1.error_type ∧
      (combine_classifications (c1 :: c2 :: rest)).severity = c1.severity ∧
      (combine_classifications (c1 :: c2 :: rest)).root_cause = c1.root_cause ∧
      (combine_classifications (c1 :: c2 :: rest)).affected_systems = c1.affected_systems ∧
      (combine_classifications (c1 :: c2 :: rest)).classification_rules
          = c1.classification_rules ∧
      (∀ x : String, x ∈ (combine_classifications (c1 :: c2 :: rest)).components ↔
          ∃ c ∈ c1 :: c2 :: rest, x ∈ c.components) ∧
      (∀ x : String, x ∈ (combine_classifications (c1 :: c2 :: rest)).suggested_actions ↔
          ∃ c ∈ c1 :: c2 :: rest, x ∈ c.suggested_actions) ∧
      (combine_classifications (c1 :: c2 :: rest)).suggested_actions.Nodup ∧
      (combine_classifications (c1 :: c2 :: rest)).confidence =
          ((c1 :: c2 :: rest).map (·.confidence)).sum /
            (((c1 :: c2 :: rest).length : ℚ))) := by
  refine ⟨fun c => rfl, ?_⟩
  intro c1 c2 rest
  refine ⟨rfl, rfl, rfl, rfl, rfl, ?_, ?_, ?_, rfl⟩
  · intro x
    show x ∈ ((c1 :: c2 :: rest).flatMap (·.components)).dedup ↔ _
    rw [List.mem_dedup, List.mem_flatMap]
  · intro x
    show x ∈ ((c1 :: c2 :: rest).flatMap (·.suggested_actions)).dedup ↔ _
    rw [List.mem_dedup, List.mem_flatMap]
  · exact List.nodup_dedup _

/-- C7 witness: the single-source pass-through instantiated at the example
classification. -/
theorem C7_combination_witness :
    combine_classifications [classify_with_rules "fatal crash"]
      = classify_with_rules "fatal crash" :=
  C7_combination.1 (classify_with_rules "fatal crash")

/-! ## C8: retention cleanup -/

/-- C8: after cleanup_old_incidents, every incident strictly older than
`now - retention_days` is gone, and every stored incident strictly newer than
that cutoff is still present (unchanged: cleanup filters, never rewrites). -/
theorem C8_retention (now : ℚ) (retention_days : ℕ) (incidents : List IncidentM)
    (inc : IncidentM) :
    (inc.timestamp < now - (retention_days : ℚ) →
      inc ∉ cleanup_old_incidents now retention_days incidents) ∧
    (inc ∈ incidents → now - (retention_days : ℚ) < inc.timestamp →
      inc ∈ cleanup_old_incidents now retention_days incidents) := by
  constructor
  · intro hold hmem
    rw [cleanup_old_incidents, List.mem_filter] at hmem
    have h := hmem.2
    simp only [Bool.not_eq_true', decide_eq_false_iff_not] at h
    exact h hold
  · intro hmem hnew
    rw [cleanup_old_incidents, List.mem_filter]
    refine ⟨hmem, ?_⟩
    simp only [Bool.not_eq_true', decide_eq_false_iff_not]
    exact lt_asymm hnew

def c8_old : IncidentM :=
  { incident_id := "incident_old", timestamp := 6, log_entry := [], parsed_data := []
    classification := [], analysis := [], fixes := [], patches := []
    resolution_status := "pending", metadata := [] }

def c8_new : IncidentM :=
  { incident_id := "incident_new", timestamp := 8, log_entry := [], parsed_data := []
    classification := [], analysis := [], fixes := [], patches := []
    resolution_status := "pending", metadata := [] }

/-- C8 witness: with now = 10 and retention 3 days, the incident of timestamp
6 (retention + 1 days old) is removed and the incident of timestamp 8
(retention - 1 days old) remains. -/
theorem C8_retention_witness :
    c8_old ∉ cleanup_old_incidents 10 3 [c8_old, c8_new] ∧
    c8_new ∈ cleanup_old_incidents 10 3 [c8_old, c8_new] :=
  ⟨(C8_retention 10 3 [c8_old, c8_new] c8_old).1 (by rw [c8_old]; norm_num),
   (C8_retention 10 3 [c8_old, c8_new] c8_new).2
     (List.mem_cons_of_mem _ (List.mem_cons_self _ _)) (by rw [c8_new]; norm_num)⟩

/-! ## C9: classification depends only on the message -/

/-- C9: with the rule source enabled and the ML source disabled, classify
returns equal classifications for any two entries with equal message fields,
whatever their structured data (of any type): the rule path never reads
structured_data and the memoization cache is keyed by the message alone. -/
theorem C9_message_determines_classification {σ τ : Type} (cache : ClsCache)
    (e1 : ParsedEntry σ) (e2 : ParsedEntry τ) (h : e1.message = e2.message) :
    (classify cache e1).1 = (classify cache e2).1 := by
  unfold classify
  rw [h]
  cases lookup_assoc cache e2.message with
  | some c => rfl
  | none => rfl

/-- C9 witness: two entries with the same message but structured data of
different types and values classify identically from an empty cache. -/
theorem C9_message_determines_classification_witness :
    (classify []
        ({ message := "Database connection timeout after 30s", structured_data := 7 } :
          ParsedEntry Nat)).1 =
    (classify []
        ({ message := "Database connection timeout after 30s",
           structured_data := "pod-12" } : ParsedEntry String)).1 :=
  C9_message_determines_classification [] _ _ rfl

/-! ## C10: similar-incident retrieval -/

/-- C10: get_similar_incidents returns at most `limit` incidents, never the
query's own incident id, only incidents with weighted similarity above 0.5,
in non-increasing similarity order. -/
theorem C10_similar_incidents (incidents : List IncidentM) (incident : IncidentM)
    (limit : ℕ) :
    (get_similar_incidents incidents incident limit).length ≤ limit ∧
    (∀ x ∈ get_similar_incidents incidents incident limit,
        x.incident_id ≠ incident.incident_id ∧
        (1 : ℚ) / 2 < calculate_incident_similarity incident x) ∧
    (get_similar_incidents incidents incident limit).Pairwise (fun a b =>
        calculate_incident_similarity incident b ≤
          calculate_incident_similarity incident a) := by
  have hchar : ∀ p ∈ incidents.filterMap (fun stored =>
      if stored.incident_id = incident.incident_id then none
      else
        if (1 : ℚ) / 2 < calculate_incident_similarity incident stored then
          some (calculate_incident_similarity incident stored, stored)
        else none),
      p.1 = calculate_incident_similarity incident p.2 ∧
      p.2.incident_id ≠ incident.incident_id ∧
      (1 : ℚ) / 2 < calculate_incident_similarity incident p.2 := by
    intro p hp
    rw [List.mem_filterMap] at hp
    obtain ⟨stored, _, hsome⟩ := hp
    by_cases hid : stored.incident_id = incident.incident_id
    · rw [if_pos hid] at hsome
      cases hsome
    · rw [if_neg hid] at hsome
      by_cases hsim : (1 : ℚ) / 2 < calculate_incident_similarity incident stored
      · rw [if_pos hsim] at hsome
        simp only [Option.some.injEq] at hsome
        rw [← hsome]
        exact ⟨rfl, hid, hsim⟩
      · rw [if_neg hsim] at hsome
        cases hsome
  refine ⟨?_, ?_, ?_⟩
  · rw [get_similar_incidents]
    rw [List.length_map, List.length_take]
    exact min_le_left _ _
  · intro x hx
    rw [get_similar_incidents, List.mem_map] at hx
    obtain ⟨p, hp, hpx⟩ := hx
    have hp2 : p ∈ pySort simLE _ := (List.take_sublist _ _).mem hp
    rw [mem_pySort] at hp2
    have h := hchar p hp2
    rw [hpx] at h
    exact ⟨h.2.1, h.2.2⟩
  · rw [get_similar_incidents]
    rw [List.pairwise_map]
    have hsorted := pairwise_pySort simLE_trans simLE_total
      (incidents.filterMap (fun stored =>
        if stored.incident_id = incident.incident_id then none
        else
          if (1 : ℚ) / 2 < calculate_incident_similarity incident stored then
            some (calculate_incident_similarity incident stored, stored)
          else none))
    have htake := List.Pairwise.sublist (List.take_sublist limit _) hsorted
    refine htake.imp_of_mem ?_
    intro p q hpmem hqmem hle
    have hp := hchar p ((mem_pySort _).mp ((List.take_sublist _ _).mem hpmem))
    have hq := hchar q ((mem_pySort _).mp ((List.take_sublist _ _).mem hqmem))
    simp only [simLE, decide_eq_true_eq] at hle
    rw [← hp.1, ← hq.1]
    exact hle

def c10_q : IncidentM :=
  { incident_id := "incident_query", timestamp := 0
    log_entry := [("message", "database connection timeout")]
    parsed_data := [], classification := [("error_type", "database_errors"),
      ("severity", "WARNING")]
    analysis := [], fixes := [], patches := []
    resolution_status := "pending", metadata := [] }

def c10_store : List IncidentM :=
  [c10_q,
   { incident_id := "incident_other", timestamp := 1
     log_entry := [("message", "database connection timeout")]
     parsed_data := [], classification := [("error_type", "database_errors"),
       ("severity", "WARNING")]
     analysis := [], fixes := [], patches := []
     resolution_status := "pending", metadata := [] }]

/-- C10 witness: the bound instantiated at a concrete store and limit. -/
theorem C10_similar_incidents_witness :
    (get_similar_incidents c10_store c10_q 1).length ≤ 1 :=
  (C10_similar_incidents c10_store c10_q 1).1
